import Mathlib

/-!
# Verification of the netplan YAML generator

A shallow embedding of `netplan_generator.py`: the configuration document is
modelled as an insertion-ordered association structure mirroring Python's
`dict` semantics (assignment to an existing key updates it in place, a new
key is appended), the add-operations and the YAML dumper are translated
directly from the source, and the command-line driver `main` is modelled as
a pure function from parsed arguments to either a usage error or the
rendered document.
-/

set_option maxHeartbeats 1000000

/-- A YAML scalar as produced by the generator: booleans, integers, strings. -/
inductive Scalar where
  | b (v : Bool)
  | i (v : Int)
  | s (v : String)
deriving DecidableEq, Repr

/-- A value stored in an interface record: a scalar, a list of strings
(`addresses`, `interfaces`), a scalar-valued mapping (`parameters`,
`dhcp4-overrides`, `dhcp6-overrides`), or a list-valued mapping
(`nameservers`). -/
inductive FieldVal where
  | scalar (v : Scalar)
  | strlist (xs : List String)
  | smap (m : List (String × Scalar))
  | lmap (m : List (String × List String))
deriving DecidableEq, Repr

/-- An interface record: insertion-ordered mapping of field names to values,
as the Python code builds `interface_config`. -/
abbrev Record := List (String × FieldVal)

/-- A value of the top-level `network` mapping: the `version`/`renderer`
scalars or one of the three section tables mapping interface names to
records. -/
inductive NetVal where
  | scalar (v : Scalar)
  | table (m : List (String × Record))
deriving DecidableEq, Repr

/-- Python dict assignment `d[k] = v`: update in place when the key exists
(preserving its position), append otherwise. -/
def dictInsert {α : Type} (m : List (String × α)) (k : String) (v : α) :
    List (String × α) :=
  if (m.lookup k).isSome then
    m.map (fun p => if p.1 = k then (k, v) else p)
  else
    m ++ [(k, v)]

/-- The generator state: the inner `network` mapping of `self.config`
(the outer dict has the single fixed key `network`). -/
structure NetplanGenerator where
  network : List (String × NetVal)
deriving DecidableEq, Repr

/-- `NetplanGenerator.__init__`: `{"network": {"version": 2, "renderer": renderer}}`. -/
def NetplanGenerator.init (renderer : String) : NetplanGenerator :=
  ⟨[("version", NetVal.scalar (Scalar.i 2)),
    ("renderer", NetVal.scalar (Scalar.s renderer))]⟩

/-- Options of `add_ethernet`, with the Python defaults. -/
structure EthOptions where
  dhcp4 : Bool := true
  dhcp6 : Bool := false
  addresses : Option (List String) := none
  gateway4 : Option String := none
  gateway6 : Option String := none
  nameservers : Option (List String) := none
  dhcp4_overrides : Option (List (String × Scalar)) := none
  dhcp6_overrides : Option (List (String × Scalar)) := none
deriving Repr

/-- Options of `add_bond`, with the Python defaults. -/
structure BondOptions where
  mode : String := "active-backup"
  dhcp4 : Bool := true
  dhcp6 : Bool := false
  addresses : Option (List String) := none
  gateway4 : Option String := none
  gateway6 : Option String := none
  nameservers : Option (List String) := none
deriving Repr

/-- Options of `add_bridge`, with the Python defaults. -/
structure BridgeOptions where
  dhcp4 : Bool := true
  dhcp6 : Bool := false
  addresses : Option (List String) := none
  gateway4 : Option String := none
  gateway6 : Option String := none
  nameservers : Option (List String) := none
deriving Repr

/-- Python truthiness of an optional list argument (`if addresses:`):
falsy when `None` or empty. -/
def truthyList (o : Option (List String)) : Bool :=
  match o with
  | none => false
  | some xs => !xs.isEmpty

/-- Python truthiness of an optional string argument (`if gateway4:`):
falsy when `None` or the empty string. -/
def truthyStr (o : Option String) : Bool :=
  match o with
  | none => false
  | some s => !(s = "")

/-- Python truthiness of an optional dict argument (`if dhcp4_overrides:`). -/
def truthyMap (o : Option (List (String × Scalar))) : Bool :=
  match o with
  | none => false
  | some m => !m.isEmpty

/-- The shared tail of every interface record: the conditional
`dhcp4`/`dhcp6`/`addresses`/`gateway4`/`gateway6`/`nameservers`
assignments common to `add_ethernet`, `add_bond` and `add_bridge`. -/
def commonFields (dhcp4 dhcp6 : Bool) (addresses : Option (List String))
    (gateway4 gateway6 : Option String)
    (nameservers : Option (List String)) : Record :=
  (if dhcp4 then [("dhcp4", FieldVal.scalar (Scalar.b true))] else [])
  ++ (if dhcp6 then [("dhcp6", FieldVal.scalar (Scalar.b true))] else [])
  ++ (if truthyList addresses then
        [("addresses", FieldVal.strlist (addresses.getD []))] else [])
  ++ (if truthyStr gateway4 then
        [("gateway4", FieldVal.scalar (Scalar.s (gateway4.getD "")))] else [])
  ++ (if truthyStr gateway6 then
        [("gateway6", FieldVal.scalar (Scalar.s (gateway6.getD "")))] else [])
  ++ (if truthyList nameservers then
        [("nameservers", FieldVal.lmap [("addresses", nameservers.getD [])])]
      else [])

/-- The `interface_config` dict built by `add_ethernet`. -/
def mkEthRecord (o : EthOptions) : Record :=
  commonFields o.dhcp4 o.dhcp6 o.addresses o.gateway4 o.gateway6 o.nameservers
  ++ (if truthyMap o.dhcp4_overrides then
        [("dhcp4-overrides", FieldVal.smap (o.dhcp4_overrides.getD []))] else [])
  ++ (if truthyMap o.dhcp6_overrides then
        [("dhcp6-overrides", FieldVal.smap (o.dhcp6_overrides.getD []))] else [])

/-- The `interface_config` dict built by `add_bond`: `interfaces` and
`parameters.mode` first, then the shared optional fields. -/
def mkBondRecord (interfaces : List String) (o : BondOptions) : Record :=
  [("interfaces", FieldVal.strlist interfaces),
   ("parameters", FieldVal.smap [("mode", Scalar.s o.mode)])]
  ++ commonFields o.dhcp4 o.dhcp6 o.addresses o.gateway4 o.gateway6 o.nameservers

/-- The `interface_config` dict built by `add_bridge`: `interfaces` first,
then the shared optional fields. -/
def mkBridgeRecord (interfaces : List String) (o : BridgeOptions) : Record :=
  [("interfaces", FieldVal.strlist interfaces)]
  ++ commonFields o.dhcp4 o.dhcp6 o.addresses o.gateway4 o.gateway6 o.nameservers

/-- Read a section table out of the `network` mapping (empty when absent;
by construction a section key is always bound to a table). -/
def getTable (net : List (String × NetVal)) (sec : String) :
    List (String × Record) :=
  match net.lookup sec with
  | some (NetVal.table m) => m
  | _ => []

/-- `if sec not in self.config["network"]: self.config["network"][sec] = {}`. -/
def ensureTable (net : List (String × NetVal)) (sec : String) :
    List (String × NetVal) :=
  if (net.lookup sec).isSome then net else dictInsert net sec (NetVal.table [])

/-- Write an interface record into a section:
`self.config["network"][sec][name] = interface_config`. -/
def putRecord (net : List (String × NetVal)) (sec name : String) (r : Record) :
    List (String × NetVal) :=
  dictInsert net sec (NetVal.table (dictInsert (getTable net sec) name r))

/-- `NetplanGenerator.add_ethernet`. -/
def NetplanGenerator.add_ethernet (g : NetplanGenerator) (name : String)
    (o : EthOptions) : NetplanGenerator :=
  let net := ensureTable g.network "ethernets"
  ⟨putRecord net "ethernets" name (mkEthRecord o)⟩

/-- `NetplanGenerator.add_bond`. -/
def NetplanGenerator.add_bond (g : NetplanGenerator) (name : String)
    (interfaces : List String) (o : BondOptions) : NetplanGenerator :=
  let net := ensureTable g.network "bonds"
  ⟨putRecord net "bonds" name (mkBondRecord interfaces o)⟩

/-- `NetplanGenerator.add_bridge`. -/
def NetplanGenerator.add_bridge (g : NetplanGenerator) (name : String)
    (interfaces : List String) (o : BridgeOptions) : NetplanGenerator :=
  let net := ensureTable g.network "bridges"
  ⟨putRecord net "bridges" name (mkBridgeRecord interfaces o)⟩

/-- The key order of the `network` mapping as the YAML dumper will emit it. -/
def topLevelKeys (g : NetplanGenerator) : List String :=
  g.network.map Prod.fst

/-- Look up a whole section of the document (`none` when the key was never
created). -/
def getSection (g : NetplanGenerator) (sec : String) :
    Option (List (String × Record)) :=
  match g.network.lookup sec with
  | some (NetVal.table m) => some m
  | _ => none

/-- Look up one interface record. -/
def getEntry (g : NetplanGenerator) (sec name : String) : Option Record :=
  match getSection g sec with
  | some m => m.lookup name
  | none => none

/-- `2*n` spaces of indentation (PyYAML's default indent is 2). -/
def indentStr (n : Nat) : String :=
  String.join (List.replicate n "  ")

/-- Render a scalar the way `yaml.dump` renders it: `true`/`false` literals,
decimal integers, plain strings. -/
def renderScalar (v : Scalar) : String :=
  match v with
  | Scalar.b true => "true"
  | Scalar.b false => "false"
  | Scalar.i n => toString n
  | Scalar.s s => s

/-- Render a block sequence of strings; PyYAML places the dashes at the same
column as the parent key. -/
def renderStrList (ind : Nat) (xs : List String) : String :=
  String.join (xs.map (fun x => indentStr ind ++ "- " ++ x ++ "\n"))

/-- Render one field of an interface record. -/
def renderFieldVal (ind : Nat) (key : String) (v : FieldVal) : String :=
  match v with
  | FieldVal.scalar s => indentStr ind ++ key ++ ": " ++ renderScalar s ++ "\n"
  | FieldVal.strlist xs =>
      if xs.isEmpty then indentStr ind ++ key ++ ": []\n"
      else indentStr ind ++ key ++ ":\n" ++ renderStrList ind xs
  | FieldVal.smap m =>
      if m.isEmpty then indentStr ind ++ key ++ ": \x7b\x7d\n"
      else indentStr ind ++ key ++ ":\n"
           ++ String.join (m.map (fun p =>
                indentStr (ind + 1) ++ p.1 ++ ": " ++ renderScalar p.2 ++ "\n"))
  | FieldVal.lmap m =>
      if m.isEmpty then indentStr ind ++ key ++ ": \x7b\x7d\n"
      else indentStr ind ++ key ++ ":\n"
           ++ String.join (m.map (fun p =>
                indentStr (ind + 1) ++ p.1 ++ ":\n"
                ++ renderStrList (ind + 1) p.2))

/-- Render an interface record (the caller handles the empty-record case). -/
def renderRecord (ind : Nat) (r : Record) : String :=
  String.join (r.map (fun p => renderFieldVal ind p.1 p.2))

/-- Render a section table: each interface name followed by its record,
an empty record printed in flow style as PyYAML does. -/
def renderTable (ind : Nat) (m : List (String × Record)) : String :=
  String.join (m.map (fun p =>
    if p.2.isEmpty then indentStr ind ++ p.1 ++ ": \x7b\x7d\n"
    else indentStr ind ++ p.1 ++ ":\n" ++ renderRecord (ind + 1) p.2))

/-- Render one entry of the `network` mapping. -/
def renderNetVal (ind : Nat) (key : String) (v : NetVal) : String :=
  match v with
  | NetVal.scalar s => indentStr ind ++ key ++ ": " ++ renderScalar s ++ "\n"
  | NetVal.table m =>
      if m.isEmpty then indentStr ind ++ key ++ ": \x7b\x7d\n"
      else indentStr ind ++ key ++ ":\n" ++ renderTable (ind + 1) m

/-- `NetplanGenerator.to_yaml`:
`yaml.dump(self.config, default_flow_style=False, sort_keys=False)`. -/
def NetplanGenerator.to_yaml (g : NetplanGenerator) : String :=
  "network:\n" ++ String.join (g.network.map (fun p => renderNetVal 1 p.1 p.2))

/-- The `to_yaml` call as an operation on the generator: it reads the
document and returns the text, leaving the document as it was. -/
def NetplanGenerator.render (g : NetplanGenerator) : String × NetplanGenerator :=
  (g.to_yaml, g)

/-- Python's `str.split(sep)` on a list of characters: cut at every
occurrence of the one-character separator, keeping empty pieces
(`"".split(",") == [""]`, `"a,".split(",") == ["a", ""]`). -/
def splitCharList (sep : Char) : List Char → List (List Char)
  | [] => [[]]
  | c :: cs =>
      let r := splitCharList sep cs
      if c = sep then [] :: r
      else
        match r with
        | h :: t => (c :: h) :: t
        | [] => [[c]]

/-- Python's `str.split(sep)` for a one-character separator. -/
def pySplit (sep : Char) (s : String) : List String :=
  (splitCharList sep s.toList).map (fun cs => String.mk cs)

/-- Python's `str.strip()`: drop leading and trailing whitespace. -/
def pyStrip (s : String) : String :=
  String.mk
    (((s.toList.dropWhile Char.isWhitespace).reverse.dropWhile
        Char.isWhitespace).reverse)

/-- Python's `str.lower()`. -/
def pyLower (s : String) : String :=
  String.mk (s.toList.map Char.toLower)

/-- Python's `int(...)` on a string of decimal digits. -/
def digitsToNat (cs : List Char) : Nat :=
  cs.foldl (fun n c => n * 10 + (c.toNat - 48)) 0

/-- `parse_list`: comma-separated values to a list of stripped items. -/
def parse_list (value : String) : List String :=
  if value = "" then []
  else (pySplit ',' value).map pyStrip

/-- The value coercion inside `parse_overrides`: case-insensitive
`true`/`false` become booleans, all-digit values become integers,
everything else stays a string. -/
def coerceVal (val : String) : Scalar :=
  if pyLower val = "true" || pyLower val = "false" then
    Scalar.b (pyLower val = "true")
  else if val ≠ "" && val.toList.all Char.isDigit then
    Scalar.i (Int.ofNat (digitsToNat val.toList))
  else
    Scalar.s val

/-- Python's `str.join`: `joinSep sep [a, b, c] = a ++ sep ++ b ++ sep ++ c`,
used to model `pair.split("=", 1)` as a full split rejoined past the first
separator. -/
def joinSep (sep : String) : List String → String
  | [] => ""
  | [x] => x
  | x :: xs => x ++ sep ++ joinSep sep xs

/-- `parse_overrides`: comma-separated `key=value` pairs into an
insertion-ordered dictionary; pairs without `=` are skipped; the value is
split off at the first `=` and both sides stripped. -/
def parse_overrides (value : String) : List (String × Scalar) :=
  if value = "" then []
  else
    (pySplit ',' value).foldl (fun acc pair =>
      let parts := pySplit '=' pair
      if 2 ≤ parts.length then
        let key := pyStrip (parts.headD "")
        let val := pyStrip (joinSep "=" parts.tail)
        dictInsert acc key (coerceVal val)
      else acc) []

/-- The argparse result: each optional flag is `none` when not supplied,
mirroring `argparse`'s `None` defaults; `use_nm` models the
NetworkManager-minimal mode switch exercised by the test suite. -/
structure Args where
  output : Option String := none
  renderer : String := "networkd"
  ethernet : Option String := none
  bond : Option String := none
  bridge : Option String := none
  static : Bool := false
  addresses : Option String := none
  gateway4 : Option String := none
  gateway6 : Option String := none
  nameservers : Option String := none
  dhcp4_overrides : Option String := none
  dhcp6_overrides : Option String := none
  bond_interfaces : Option String := none
  bond_mode : String := "active-backup"
  bridge_interfaces : Option String := none
  use_nm : Bool := false
deriving Repr

/-- Modelled from the spec: the guidance text of the NetworkManager-minimal
mode (missing from the module under `src/`, referenced by its tests):
human-readable comments naming the external tool's command-line front end
(nmcli), its GUI front end (nm-connection-editor) and where its
documentation lives. -/
def nmGuidance : String :=
  "# This configuration delegates network management to NetworkManager.\n"
  ++ "# Use the NetworkManager command-line interface (nmcli) or the\n"
  ++ "# graphical front end (nm-connection-editor) to manage interfaces.\n"
  ++ "# See man nmcli and https://networkmanager.dev/ for documentation.\n"

/-- Modelled from the spec: `generate_networkmanager_config` (missing from
the module under `src/`, imported by its tests) is a pure function
producing the fixed document with `version: 2` and
`renderer: NetworkManager` and nothing else, annotated with the guidance
comments. -/
def generate_networkmanager_config : String :=
  nmGuidance ++ (NetplanGenerator.init "NetworkManager").to_yaml

/-- The `parse_list(x) if x else None` idiom of `main`. -/
def optParseList (o : Option String) : Option (List String) :=
  if truthyStr o then some (parse_list (o.getD "")) else none

/-- The `parse_overrides(x) if x else None` idiom of `main`. -/
def optParseOverrides (o : Option String) : Option (List (String × Scalar)) :=
  if truthyStr o then some (parse_overrides (o.getD "")) else none

/-- The `# Process ethernet interface` block of `main`. -/
def ethStage (args : Args) (g : NetplanGenerator) : NetplanGenerator :=
  if truthyStr args.ethernet then
    g.add_ethernet (args.ethernet.getD "")
      { dhcp4 := !args.static
        dhcp6 := false
        addresses := optParseList args.addresses
        gateway4 := args.gateway4
        gateway6 := args.gateway6
        nameservers := optParseList args.nameservers
        dhcp4_overrides := optParseOverrides args.dhcp4_overrides
        dhcp6_overrides := optParseOverrides args.dhcp6_overrides }
  else g

/-- The `generator.add_bond(...)` call of the `# Process bond interface`
block of `main`. -/
def bondStage (args : Args) (g : NetplanGenerator) : NetplanGenerator :=
  if truthyStr args.bond then
    g.add_bond (args.bond.getD "") (parse_list (args.bond_interfaces.getD ""))
      { mode := args.bond_mode
        dhcp4 := !args.static
        dhcp6 := false
        addresses := optParseList args.addresses
        gateway4 := args.gateway4
        gateway6 := args.gateway6
        nameservers := optParseList args.nameservers }
  else g

/-- The `generator.add_bridge(...)` call of the `# Process bridge
interface` block of `main`. -/
def bridgeStage (args : Args) (g : NetplanGenerator) : NetplanGenerator :=
  if truthyStr args.bridge then
    g.add_bridge (args.bridge.getD "") (parse_list (args.bridge_interfaces.getD ""))
      { dhcp4 := !args.static
        dhcp6 := false
        addresses := optParseList args.addresses
        gateway4 := args.gateway4
        gateway6 := args.gateway6
        nameservers := optParseList args.nameservers }
  else g

/-- The document-building phase of `main`, translated statement by
statement.  An error is a `parser.error` call: its message, paired with
the generator state at the moment the error is raised (`none` when the
error fires before the generator is constructed).  Success carries the
rendered text `yaml_output = generator.to_yaml()` and the final state. -/
def mainBuild (args : Args) :
    Except (String × Option NetplanGenerator) (String × NetplanGenerator) :=
  if !(truthyStr args.ethernet || truthyStr args.bond || truthyStr args.bridge) then
    Except.error ("At least one interface type must be specified", none)
  else
    let g1 := ethStage args (NetplanGenerator.init args.renderer)
    if truthyStr args.bond && !truthyStr args.bond_interfaces then
      Except.error ("--bond-interfaces is required when using --bond", some g1)
    else
      let g2 := bondStage args g1
      if truthyStr args.bridge && !truthyStr args.bridge_interfaces then
        Except.error ("--bridge-interfaces is required when using --bridge", some g2)
      else
        let g3 := bridgeStage args g2
        Except.ok (g3.to_yaml, g3)

/-- The full build phase including the NetworkManager-minimal mode.  The
mode switch is modelled from the spec (it is absent from the module under
`src/`): when selected it takes exclusive effect, bypassing the builder
and every other interface option. -/
def mainModel (args : Args) :
    Except (String × Option NetplanGenerator) (String × NetplanGenerator) :=
  if args.use_nm then
    Except.ok (generate_networkmanager_config, NetplanGenerator.init "NetworkManager")
  else mainBuild args

/-- The fixed prefix `argparse` prints on `parser.error` before the
message (usage line and program prefix), abstracted as one constant. -/
def usageText : String :=
  "usage: netplan_generator.py [options]\nnetplan_generator.py: error: "

/-- Observable outcome of one process invocation: exit status, text printed
to standard output and to the error stream, and the file written (path and
exact content), when any. -/
structure CLIOutcome where
  exitCode : Nat
  stdout : String
  stderr : String
  written : Option (String × String)
deriving DecidableEq, Repr

/-- The whole of `main` as one pure function.  `writeRes` is the outcome
of the attempted file write (`none` = success, `some e` = an `IOError`
with message `e`); it is consulted only when an output file is named.
`parser.error` exits with status 2 after printing usage and the
diagnostic to the error stream; a failed write exits with status 1. -/
def runMain (args : Args) (writeRes : Option String) : CLIOutcome :=
  match mainModel args with
  | Except.error (msg, _) =>
      { exitCode := 2, stdout := "", stderr := usageText ++ msg ++ "\n", written := none }
  | Except.ok (yaml, _) =>
      if truthyStr args.output then
        match writeRes with
        | none =>
            { exitCode := 0
              stdout := "Configuration written to " ++ args.output.getD "" ++ "\n"
              stderr := ""
              written := some (args.output.getD "", yaml) }
        | some e =>
            { exitCode := 1, stdout := ""
              stderr := "Error writing to file: " ++ e ++ "\n", written := none }
      else
        { exitCode := 0, stdout := yaml ++ "\n", stderr := "", written := none }

/-- One library-level add-operation, for stating order-independence
properties over arbitrary call sequences. -/
inductive Op where
  | eth (name : String) (o : EthOptions)
  | bond (name : String) (interfaces : List String) (o : BondOptions)
  | bridge (name : String) (interfaces : List String) (o : BridgeOptions)

/-- The section an operation writes to. -/
def Op.sectionKey (op : Op) : String :=
  match op with
  | Op.eth _ _ => "ethernets"
  | Op.bond _ _ _ => "bonds"
  | Op.bridge _ _ _ => "bridges"

/-- Apply one operation to the generator. -/
def applyOp (g : NetplanGenerator) (op : Op) : NetplanGenerator :=
  match op with
  | Op.eth n o => g.add_ethernet n o
  | Op.bond n ifs o => g.add_bond n ifs o
  | Op.bridge n ifs o => g.add_bridge n ifs o

/-- Apply a sequence of operations in order. -/
def applyOps (g : NetplanGenerator) (ops : List Op) : NetplanGenerator :=
  ops.foldl applyOp g

/-- Accumulate the key order produced by a sequence of operations: each
operation appends its section key on first use and leaves the order
unchanged afterwards. -/
def firstUseOrder (acc : List String) (ops : List Op) : List String :=
  ops.foldl (fun ks op => if op.sectionKey ∈ ks then ks else ks ++ [op.sectionKey]) acc

/-- The final document of a successful invocation of the command surface. -/
def mainDoc (args : Args) : Option NetplanGenerator :=
  match mainModel args with
  | Except.ok (_, g) => some g
  | Except.error _ => none

theorem mem_keys_iff_lookup_isSome {α : Type} (m : List (String × α)) (k : String) :
    k ∈ m.map Prod.fst ↔ (m.lookup k).isSome = true := by
  rw [List.lookup_isSome_iff]
  constructor
  · intro h
    rcases List.mem_map.mp h with ⟨p, hp, he⟩
    exact ⟨p, hp, by simp [he]⟩
  · rintro ⟨p, hp, he⟩
    exact List.mem_map.mpr ⟨p, hp, (beq_iff_eq.mp he).symm⟩

theorem lookup_map_update {α : Type} (m : List (String × α)) (k : String) (v : α)
    (h : (m.lookup k).isSome = true) :
    (m.map (fun p => if p.1 = k then (k, v) else p)).lookup k = some v := by
  induction m with
  | nil => simp at h
  | cons p t ih =>
    obtain ⟨k₁, v₁⟩ := p
    by_cases hk : k₁ = k
    · subst hk
      simp [List.lookup_cons]
    · have hb : (k == k₁) = false := beq_false_of_ne (Ne.symm hk)
      simp only [List.lookup_cons, List.map_cons, if_neg hk, hb] at h ⊢
      exact ih h

theorem lookup_map_update_ne {α : Type} (m : List (String × α)) (k k' : String) (v : α)
    (h : k' ≠ k) :
    (m.map (fun p => if p.1 = k then (k, v) else p)).lookup k' = m.lookup k' := by
  induction m with
  | nil => simp
  | cons p t ih =>
    obtain ⟨k₁, v₁⟩ := p
    simp only [List.map_cons]
    by_cases hk : k₁ = k
    · subst hk
      rw [if_pos rfl]
      have hb : (k' == k₁) = false := beq_false_of_ne h
      rw [List.lookup_cons, List.lookup_cons, hb]
      exact ih
    · rw [if_neg hk, List.lookup_cons, List.lookup_cons]
      cases hbk : k' == k₁
      · exact ih
      · rfl

theorem keys_map_update {α : Type} (m : List (String × α)) (k : String) (v : α) :
    (m.map (fun p => if p.1 = k then (k, v) else p)).map Prod.fst = m.map Prod.fst := by
  induction m with
  | nil => rfl
  | cons p t ih =>
    obtain ⟨k₁, v₁⟩ := p
    by_cases hk : k₁ = k <;> simp [hk, ih]

theorem lookup_dictInsert_self {α : Type} (m : List (String × α)) (k : String) (v : α) :
    (dictInsert m k v).lookup k = some v := by
  by_cases h : (m.lookup k).isSome = true
  · simp only [dictInsert, if_pos h]
    exact lookup_map_update m k v h
  · simp only [dictInsert, if_neg h]
    have hn : m.lookup k = none := Option.not_isSome_iff_eq_none.mp h
    rw [List.lookup_append, hn]
    simp

theorem lookup_dictInsert_ne {α : Type} (m : List (String × α)) (k k' : String) (v : α)
    (h : k' ≠ k) :
    (dictInsert m k v).lookup k' = m.lookup k' := by
  by_cases hs : (m.lookup k).isSome = true
  · simp only [dictInsert, if_pos hs]
    exact lookup_map_update_ne m k k' v h
  · simp only [dictInsert, if_neg hs]
    rw [List.lookup_append]
    simp [List.lookup_cons, beq_false_of_ne h]

theorem keys_dictInsert {α : Type} (m : List (String × α)) (k : String) (v : α) :
    (dictInsert m k v).map Prod.fst =
      if k ∈ m.map Prod.fst then m.map Prod.fst else m.map Prod.fst ++ [k] := by
  by_cases hs : (m.lookup k).isSome = true
  · have hmem : k ∈ m.map Prod.fst := (mem_keys_iff_lookup_isSome m k).mpr hs
    simp only [dictInsert, if_pos hs, if_pos hmem]
    exact keys_map_update m k v
  · have hmem : k ∉ m.map Prod.fst := fun hc =>
      hs ((mem_keys_iff_lookup_isSome m k).mp hc)
    simp [dictInsert, hs, hmem]

theorem ensureTable_of_none (net : List (String × NetVal)) (sec : String)
    (hn : net.lookup sec = none) :
    ensureTable net sec = net ++ [(sec, NetVal.table [])] := by
  simp [ensureTable, dictInsert, hn]

theorem getTable_ensureTable (net : List (String × NetVal)) (sec : String) :
    getTable (ensureTable net sec) sec = getTable net sec := by
  by_cases hs : (net.lookup sec).isSome = true
  · simp only [ensureTable, if_pos hs]
  · have hn : net.lookup sec = none := Option.not_isSome_iff_eq_none.mp hs
    unfold getTable
    rw [ensureTable_of_none net sec hn, List.lookup_append, hn]
    simp

theorem lookup_putRecord_ne (net : List (String × NetVal)) (sec k' name : String)
    (r : Record) (h : k' ≠ sec) :
    (putRecord (ensureTable net sec) sec name r).lookup k' = net.lookup k' := by
  unfold putRecord
  rw [lookup_dictInsert_ne _ _ _ _ h]
  unfold ensureTable
  split
  · rfl
  · rw [lookup_dictInsert_ne _ _ _ _ h]

theorem lookup_putRecord_self (net : List (String × NetVal)) (sec name : String)
    (r : Record) :
    (putRecord (ensureTable net sec) sec name r).lookup sec =
      some (NetVal.table (dictInsert (getTable net sec) name r)) := by
  unfold putRecord
  rw [lookup_dictInsert_self, getTable_ensureTable]

theorem keys_putRecord (net : List (String × NetVal)) (sec name : String)
    (r : Record) :
    (putRecord (ensureTable net sec) sec name r).map Prod.fst =
      if sec ∈ net.map Prod.fst then net.map Prod.fst
      else net.map Prod.fst ++ [sec] := by
  by_cases hs : (net.lookup sec).isSome = true
  · have hmem : sec ∈ net.map Prod.fst := (mem_keys_iff_lookup_isSome net sec).mpr hs
    simp only [putRecord, ensureTable, if_pos hs, keys_dictInsert, if_pos hmem]
  · have hn : net.lookup sec = none := Option.not_isSome_iff_eq_none.mp hs
    have hmem : sec ∉ net.map Prod.fst := fun hc =>
      hs ((mem_keys_iff_lookup_isSome net sec).mp hc)
    have hk : (net ++ [(sec, NetVal.table [])]).map Prod.fst
        = net.map Prod.fst ++ [sec] := by simp
    have hmem2 : sec ∈ net.map Prod.fst ++ [sec] := by simp
    unfold putRecord
    rw [ensureTable_of_none net sec hn, keys_dictInsert, hk, if_pos hmem2,
      if_neg hmem]

theorem getEntry_eq_lookup_getTable (g : NetplanGenerator) (sec k : String) :
    getEntry g sec k = (getTable g.network sec).lookup k := by
  simp only [getEntry, getSection, getTable]
  cases h : g.network.lookup sec with
  | none => rfl
  | some v => cases v <;> rfl

theorem getSection_putRecord_ne (net : List (String × NetVal))
    (sec sec' name : String) (r : Record) (h : sec' ≠ sec) :
    getSection ⟨putRecord (ensureTable net sec) sec name r⟩ sec' =
      getSection ⟨net⟩ sec' := by
  simp only [getSection]
  rw [lookup_putRecord_ne net sec sec' name r h]

theorem getTable_putRecord_self (net : List (String × NetVal))
    (sec name : String) (r : Record) :
    getTable (putRecord (ensureTable net sec) sec name r) sec =
      dictInsert (getTable net sec) name r := by
  have h := lookup_putRecord_self net sec name r
  simp only [getTable, h]

theorem getEntry_putRecord_ne (net : List (String × NetVal))
    (sec name k : String) (r : Record) (h : k ≠ name) :
    getEntry ⟨putRecord (ensureTable net sec) sec name r⟩ sec k =
      getEntry ⟨net⟩ sec k := by
  rw [getEntry_eq_lookup_getTable, getEntry_eq_lookup_getTable]
  show (getTable (putRecord (ensureTable net sec) sec name r) sec).lookup k = _
  rw [getTable_putRecord_self, lookup_dictInsert_ne _ _ _ _ h]

theorem add_ethernet_eq (g : NetplanGenerator) (name : String) (o : EthOptions) :
    g.add_ethernet name o =
      ⟨putRecord (ensureTable g.network "ethernets") "ethernets" name
        (mkEthRecord o)⟩ := rfl

theorem add_bond_eq (g : NetplanGenerator) (name : String)
    (interfaces : List String) (o : BondOptions) :
    g.add_bond name interfaces o =
      ⟨putRecord (ensureTable g.network "bonds") "bonds" name
        (mkBondRecord interfaces o)⟩ := rfl

theorem add_bridge_eq (g : NetplanGenerator) (name : String)
    (interfaces : List String) (o : BridgeOptions) :
    g.add_bridge name interfaces o =
      ⟨putRecord (ensureTable g.network "bridges") "bridges" name
        (mkBridgeRecord interfaces o)⟩ := rfl

theorem topLevelKeys_applyOp (g : NetplanGenerator) (op : Op) :
    topLevelKeys (applyOp g op) =
      if op.sectionKey ∈ topLevelKeys g then topLevelKeys g
      else topLevelKeys g ++ [op.sectionKey] := by
  cases op with
  | eth n o =>
      rw [applyOp, add_ethernet_eq]
      exact keys_putRecord g.network "ethernets" n (mkEthRecord o)
  | bond n ifs o =>
      rw [applyOp, add_bond_eq]
      exact keys_putRecord g.network "bonds" n (mkBondRecord ifs o)
  | bridge n ifs o =>
      rw [applyOp, add_bridge_eq]
      exact keys_putRecord g.network "bridges" n (mkBridgeRecord ifs o)

theorem topLevelKeys_applyOps (g : NetplanGenerator) (ops : List Op) :
    topLevelKeys (applyOps g ops) = firstUseOrder (topLevelKeys g) ops := by
  induction ops generalizing g with
  | nil => rfl
  | cons op t ih =>
    show topLevelKeys (applyOps (applyOp g op) t)
      = firstUseOrder (if op.sectionKey ∈ topLevelKeys g then topLevelKeys g
          else topLevelKeys g ++ [op.sectionKey]) t
    rw [ih, topLevelKeys_applyOp]

theorem getSection_add_ethernet_ne (g : NetplanGenerator) (n : String)
    (o : EthOptions) (sec : String) (h : sec ≠ "ethernets") :
    getSection (g.add_ethernet n o) sec = getSection g sec := by
  rw [add_ethernet_eq]
  exact getSection_putRecord_ne g.network "ethernets" sec n (mkEthRecord o) h

theorem getSection_add_bond_ne (g : NetplanGenerator) (n : String)
    (ifs : List String) (o : BondOptions) (sec : String) (h : sec ≠ "bonds") :
    getSection (g.add_bond n ifs o) sec = getSection g sec := by
  rw [add_bond_eq]
  exact getSection_putRecord_ne g.network "bonds" sec n (mkBondRecord ifs o) h

theorem getSection_add_bridge_ne (g : NetplanGenerator) (n : String)
    (ifs : List String) (o : BridgeOptions) (sec : String) (h : sec ≠ "bridges") :
    getSection (g.add_bridge n ifs o) sec = getSection g sec := by
  rw [add_bridge_eq]
  exact getSection_putRecord_ne g.network "bridges" sec n (mkBridgeRecord ifs o) h

theorem lookup_add_ethernet_ne (g : NetplanGenerator) (n : String)
    (o : EthOptions) (k : String) (h : k ≠ "ethernets") :
    (g.add_ethernet n o).network.lookup k = g.network.lookup k := by
  rw [add_ethernet_eq]
  exact lookup_putRecord_ne g.network "ethernets" k n (mkEthRecord o) h

theorem lookup_add_bond_ne (g : NetplanGenerator) (n : String)
    (ifs : List String) (o : BondOptions) (k : String) (h : k ≠ "bonds") :
    (g.add_bond n ifs o).network.lookup k = g.network.lookup k := by
  rw [add_bond_eq]
  exact lookup_putRecord_ne g.network "bonds" k n (mkBondRecord ifs o) h

theorem lookup_add_bridge_ne (g : NetplanGenerator) (n : String)
    (ifs : List String) (o : BridgeOptions) (k : String) (h : k ≠ "bridges") :
    (g.add_bridge n ifs o).network.lookup k = g.network.lookup k := by
  rw [add_bridge_eq]
  exact lookup_putRecord_ne g.network "bridges" k n (mkBridgeRecord ifs o) h

theorem getEntry_add_ethernet_ne (g : NetplanGenerator) (n : String)
    (o : EthOptions) (k : String) (h : k ≠ n) :
    getEntry (g.add_ethernet n o) "ethernets" k = getEntry g "ethernets" k := by
  rw [add_ethernet_eq]
  exact getEntry_putRecord_ne g.network "ethernets" n k (mkEthRecord o) h

theorem getEntry_add_bond_ne (g : NetplanGenerator) (n : String)
    (ifs : List String) (o : BondOptions) (k : String) (h : k ≠ n) :
    getEntry (g.add_bond n ifs o) "bonds" k = getEntry g "bonds" k := by
  rw [add_bond_eq]
  exact getEntry_putRecord_ne g.network "bonds" n k (mkBondRecord ifs o) h

theorem getEntry_add_bridge_ne (g : NetplanGenerator) (n : String)
    (ifs : List String) (o : BridgeOptions) (k : String) (h : k ≠ n) :
    getEntry (g.add_bridge n ifs o) "bridges" k = getEntry g "bridges" k := by
  rw [add_bridge_eq]
  exact getEntry_putRecord_ne g.network "bridges" n k (mkBridgeRecord ifs o) h

theorem getSection_ethStage_bonds (args : Args) (g : NetplanGenerator) :
    getSection (ethStage args g) "bonds" = getSection g "bonds" := by
  unfold ethStage
  split
  · exact getSection_add_ethernet_ne g _ _ "bonds" (by decide)
  · rfl

theorem getSection_ethStage_bridges (args : Args) (g : NetplanGenerator) :
    getSection (ethStage args g) "bridges" = getSection g "bridges" := by
  unfold ethStage
  split
  · exact getSection_add_ethernet_ne g _ _ "bridges" (by decide)
  · rfl

theorem getSection_bondStage_bridges (args : Args) (g : NetplanGenerator) :
    getSection (bondStage args g) "bridges" = getSection g "bridges" := by
  unfold bondStage
  split
  · exact getSection_add_bond_ne g _ _ _ "bridges" (by decide)
  · rfl

theorem getSection_init_bonds (r : String) :
    getSection (NetplanGenerator.init r) "bonds" = none := rfl

theorem getSection_init_bridges (r : String) :
    getSection (NetplanGenerator.init r) "bridges" = none := rfl

theorem ethStage_of_falsy (args : Args) (g : NetplanGenerator)
    (h : truthyStr args.ethernet = false) : ethStage args g = g := by
  unfold ethStage
  rw [h]
  rfl

theorem mainBuild_ok_rendered (args : Args) (y : String) (g : NetplanGenerator)
    (h : mainBuild args = Except.ok (y, g)) : y = g.to_yaml := by
  unfold mainBuild at h
  split at h
  · simp at h
  · split at h
    · simp at h
    · split at h
      · simp at h
      · simp only [Except.ok.injEq, Prod.mk.injEq] at h
        obtain ⟨h1, h2⟩ := h
        rw [← h1, ← h2]

/-- C1: the claim says `add_bond`/`add_bridge` auto-create an `ethernets`
entry with `dhcp4: false` for every member interface.  The code does not:
after `add_bond("bond0", ["eth0", "eth1"])` on a fresh generator there is
no `ethernets` section at all, and likewise for `add_bridge` — although
the repository's own tests assert the auto-created entries exist. -/
theorem bond_bridge_no_member_ethernets :
    getSection ((NetplanGenerator.init "networkd").add_bond "bond0"
        ["eth0", "eth1"] {}) "ethernets" = none
    ∧ getEntry ((NetplanGenerator.init "networkd").add_bond "bond0"
        ["eth0", "eth1"] {}) "ethernets" "eth0" = none
    ∧ getSection ((NetplanGenerator.init "networkd").add_bridge "br0"
        ["eth0", "eth1"] {}) "ethernets" = none := by
  decide

/-- C2: the claim says `add_ethernet(n, dhcp4=False)` with no other options
renders an explicit `dhcp4: false`.  The code omits the key entirely when
`dhcp4` is false (`if dhcp4:` writes only `True`), so the entry is the
empty record and the rendered text has no `dhcp4` line — although the
repository's own tests assert `dhcp4: false` appears in the output. -/
theorem static_ethernet_dhcp4_false_omitted :
    getEntry ((NetplanGenerator.init "networkd").add_ethernet "eth0"
        { dhcp4 := false }) "ethernets" "eth0" = some []
    ∧ ((NetplanGenerator.init "networkd").add_ethernet "eth0"
        { dhcp4 := false }).to_yaml
      = "network:\n  version: 2\n  renderer: networkd\n  ethernets:\n    eth0: \x7b\x7d\n" := by
  constructor
  · decide
  · rfl

/-- C4: rendering is deterministic and idempotent — `to_yaml` leaves the
document unchanged, and a second render of the unchanged document yields
byte-identical output. -/
theorem render_deterministic_idempotent (g : NetplanGenerator) :
    (g.render).2 = g ∧ ((g.render).2.render).1 = (g.render).1 :=
  ⟨rfl, rfl⟩

/-- C5 counterexample: invoking `add_bond` before `add_ethernet` renders the
`bonds` section before the `ethernets` section, so the fixed order
`ethernets`, `bonds`, `bridges` does not hold independently of the call
order. -/
theorem section_order_counterexample :
    topLevelKeys (applyOps (NetplanGenerator.init "networkd")
        [Op.bond "bond0" ["eth0", "eth1"] {}, Op.eth "eth0" {}])
      = ["version", "renderer", "bonds", "ethernets"]
    ∧ topLevelKeys (applyOps (NetplanGenerator.init "networkd")
        [Op.bond "bond0" ["eth0", "eth1"] {}, Op.eth "eth0" {}])
      ≠ ["version", "renderer", "ethernets", "bonds"] := by
  decide

/-- C5 (amended): for every sequence of add-operations, the rendered
top-level key order is `version`, `renderer`, followed by the section keys
in the order in which each section was first used by an add-operation
(each section present exactly when some operation of its kind ran) —
rather than always `ethernets`, `bonds`, `bridges`. -/
theorem section_order_follows_first_use (r : String) (ops : List Op) :
    topLevelKeys (applyOps (NetplanGenerator.init r) ops)
      = firstUseOrder ["version", "renderer"] ops :=
  topLevelKeys_applyOps (NetplanGenerator.init r) ops

/-- C6: `parse_overrides` splits on commas and the first `=`, strips both
sides, and coerces each value: case-insensitive `true`/`false` become
booleans, non-empty all-digit values become integers, everything else
stays a string; the example input parses as the claim states. -/
theorem parse_overrides_coercion :
    parse_overrides "use-dns=false,retries=3,name=foo"
      = [("use-dns", Scalar.b false), ("retries", Scalar.i 3),
         ("name", Scalar.s "foo")]
    ∧ ∀ val : String,
        (pyLower val = "true" → coerceVal val = Scalar.b true)
        ∧ (pyLower val = "false" → coerceVal val = Scalar.b false)
        ∧ (pyLower val ≠ "true" → pyLower val ≠ "false" → val ≠ "" →
            val.toList.all Char.isDigit = true →
            coerceVal val = Scalar.i (Int.ofNat (digitsToNat val.toList)))
        ∧ (pyLower val ≠ "true" → pyLower val ≠ "false" →
            (val = "" ∨ val.toList.all Char.isDigit = false) →
            coerceVal val = Scalar.s val) := by
  constructor
  · decide
  · intro val
    refine ⟨?_, ?_, ?_, ?_⟩
    · intro h
      simp [coerceVal, h]
    · intro h
      have ht : pyLower val ≠ "true" := by
        rw [h]
        decide
      simp [coerceVal, h, ht]
    · intro h1 h2 h3 h4
      simp [coerceVal, h1, h2, h3, h4]
      simpa using h4
    · intro h1 h2 h3
      rcases h3 with h3 | h3
      · simp [coerceVal, h1, h2, h3]
        decide
      · simp [coerceVal, h1, h2, h3]
        intro _
        simpa using h3

/-- C6 witness: the coercion rules applied at concrete inputs through the
theorem. -/
theorem parse_overrides_coercion_witness :
    coerceVal "TRUE" = Scalar.b true ∧ coerceVal "007" = Scalar.i 7
    ∧ coerceVal "foo" = Scalar.s "foo" := by
  refine ⟨?_, ?_, ?_⟩
  · exact (parse_overrides_coercion.2 "TRUE").1 (by decide)
  · have h := (parse_overrides_coercion.2 "007").2.2.1 (by decide) (by decide)
      (by decide) (by decide)
    rw [h]
    rfl
  · exact (parse_overrides_coercion.2 "foo").2.2.2 (by decide) (by decide)
      (Or.inr (by decide))

theorem bondStage_of_falsy (args : Args) (g : NetplanGenerator)
    (h : truthyStr args.bond = false) : bondStage args g = g := by
  unfold bondStage
  rw [h]
  rfl

/-- C3: the NetworkManager-minimal mode (modelled from the spec, since
`generate_networkmanager_config` and its mode switch are absent from the
module under `src/`) ignores every other interface flag and produces
exactly the fixed document `version: 2`, `renderer: NetworkManager` —
no `ethernets`, `bonds` or `bridges` keys — preceded by the guidance
comments in the rendered text. -/
theorem networkmanager_minimal_mode (args : Args) (h : args.use_nm = true) :
    mainModel args
      = Except.ok (generate_networkmanager_config,
          NetplanGenerator.init "NetworkManager")
    ∧ generate_networkmanager_config
      = nmGuidance ++ "network:\n  version: 2\n  renderer: NetworkManager\n"
    ∧ getSection (NetplanGenerator.init "NetworkManager") "ethernets" = none
    ∧ getSection (NetplanGenerator.init "NetworkManager") "bonds" = none
    ∧ getSection (NetplanGenerator.init "NetworkManager") "bridges" = none
    ∧ topLevelKeys (NetplanGenerator.init "NetworkManager")
      = ["version", "renderer"] := by
  refine ⟨?_, rfl, rfl, rfl, rfl, rfl⟩
  simp [mainModel, h]

/-- C3 witness: the mode applied with every other flag left at its
default. -/
theorem networkmanager_minimal_mode_witness :
    mainModel { use_nm := true }
      = Except.ok (generate_networkmanager_config,
          NetplanGenerator.init "NetworkManager") :=
  (networkmanager_minimal_mode { use_nm := true } rfl).1

/-- C7 counterexample: with `--ethernet eth0 --bond bond0` and no
`--bond-interfaces`, the validation error fires only after the ethernet
block has already mutated the document, so the rejection is not reported
before any document mutation and the document is not left unchanged. -/
theorem empty_member_interfaces_counterexample :
    mainModel { ethernet := some "eth0", bond := some "bond0" }
      = Except.error ("--bond-interfaces is required when using --bond",
          some ((NetplanGenerator.init "networkd").add_ethernet "eth0" {}))
    ∧ getEntry ((NetplanGenerator.init "networkd").add_ethernet "eth0" {})
        "ethernets" "eth0"
      = some [("dhcp4", FieldVal.scalar (Scalar.b true))]
    ∧ (NetplanGenerator.init "networkd").add_ethernet "eth0" {}
      ≠ NetplanGenerator.init "networkd" := by
  refine ⟨rfl, by decide, by decide⟩

/-- C7 (amended): a bond or bridge primary flag with an empty or missing
member-interfaces list is rejected with a validation error before the
bond/bridge record is written, and nothing is printed or written on
rejection; the document at the moment of rejection is the initial one
only when no other primary flag ran before the failing check — an
ethernet flag supplied alongside has already added its record (bond and
bridge rejections alike), and a valid bond supplied alongside a bridge
rejection has already added its record too. -/
theorem empty_member_interfaces_rejected (args : Args) (w : Option String)
    (hnm : args.use_nm = false) :
    (truthyStr args.bond = true → truthyStr args.bond_interfaces = false →
      mainModel args
        = Except.error ("--bond-interfaces is required when using --bond",
            some (ethStage args (NetplanGenerator.init args.renderer)))
      ∧ getSection (ethStage args (NetplanGenerator.init args.renderer))
          "bonds" = none
      ∧ getSection (ethStage args (NetplanGenerator.init args.renderer))
          "bridges" = none
      ∧ (truthyStr args.ethernet = false →
          ethStage args (NetplanGenerator.init args.renderer)
            = NetplanGenerator.init args.renderer)
      ∧ (runMain args w).exitCode = 2 ∧ (runMain args w).stdout = ""
      ∧ (runMain args w).written = none)
    ∧ (truthyStr args.bridge = true → truthyStr args.bridge_interfaces = false →
      (truthyStr args.bond = true → truthyStr args.bond_interfaces = true) →
      mainModel args
        = Except.error ("--bridge-interfaces is required when using --bridge",
            some (bondStage args
              (ethStage args (NetplanGenerator.init args.renderer))))
      ∧ getSection (bondStage args
            (ethStage args (NetplanGenerator.init args.renderer)))
          "bridges" = none
      ∧ (truthyStr args.ethernet = false → truthyStr args.bond = false →
          bondStage args (ethStage args (NetplanGenerator.init args.renderer))
            = NetplanGenerator.init args.renderer)
      ∧ (runMain args w).exitCode = 2 ∧ (runMain args w).stdout = ""
      ∧ (runMain args w).written = none) := by
  constructor
  · intro hb hbi
    have hm : mainModel args
        = Except.error ("--bond-interfaces is required when using --bond",
            some (ethStage args (NetplanGenerator.init args.renderer))) := by
      simp [mainModel, hnm, mainBuild, hb, hbi]
    refine ⟨hm, ?_, ?_, ?_, ?_, ?_, ?_⟩
    · rw [getSection_ethStage_bonds]
      exact getSection_init_bonds args.renderer
    · rw [getSection_ethStage_bridges]
      exact getSection_init_bridges args.renderer
    · exact fun he => ethStage_of_falsy args _ he
    · simp [runMain, hm]
    · simp [runMain, hm]
    · simp [runMain, hm]
  · intro hbr hbri hbok
    have hbe : (truthyStr args.bond && !truthyStr args.bond_interfaces) = false := by
      cases h : truthyStr args.bond
      · simp
      · simp [hbok h]
    have hm : mainModel args
        = Except.error ("--bridge-interfaces is required when using --bridge",
            some (bondStage args
              (ethStage args (NetplanGenerator.init args.renderer)))) := by
      simp [mainModel, hnm, mainBuild, hbr, hbri, hbe]
    refine ⟨hm, ?_, ?_, ?_, ?_, ?_⟩
    · rw [getSection_bondStage_bridges, getSection_ethStage_bridges]
      exact getSection_init_bridges args.renderer
    · intro he hb
      rw [ethStage_of_falsy args _ he, bondStage_of_falsy args _ hb]
    · simp [runMain, hm]
    · simp [runMain, hm]
    · simp [runMain, hm]

/-- C7 witness: `--bond bond0` alone is rejected with exit status 2 and no
output, and so is `--bond bond0 --bond-interfaces eth1 --bridge br0`
(valid bond, bridge missing its member list). -/
theorem empty_member_interfaces_rejected_witness :
    (runMain { bond := some "bond0" } none).exitCode = 2
    ∧ (runMain { bond := some "bond0" } none).stdout = ""
    ∧ (runMain { bond := some "bond0" } none).written = none
    ∧ (runMain
        { bond := some "bond0", bond_interfaces := some "eth1",
          bridge := some "br0" } none).exitCode = 2
    ∧ (runMain
        { bond := some "bond0", bond_interfaces := some "eth1",
          bridge := some "br0" } none).stdout = ""
    ∧ (runMain
        { bond := some "bond0", bond_interfaces := some "eth1",
          bridge := some "br0" } none).written = none := by
  have h := (empty_member_interfaces_rejected { bond := some "bond0" } none
    rfl).1 (by decide) (by decide)
  have h2 := (empty_member_interfaces_rejected
    { bond := some "bond0", bond_interfaces := some "eth1",
      bridge := some "br0" } none rfl).2 (by decide) (by decide)
    (fun _ => by decide)
  exact ⟨h.2.2.2.2.1, h.2.2.2.2.2.1, h.2.2.2.2.2.2,
    h2.2.2.2.1, h2.2.2.2.2.1, h2.2.2.2.2.2⟩

/-- C8 counterexample: supplying both `--ethernet eth0` and
`--bond bond0 --bond-interfaces eth1,eth2` in one invocation succeeds
(exit status 0) and defines both primary interfaces in one document, so
the command surface does not select exactly one primary interface per
invocation. -/
theorem exactly_one_primary_counterexample :
    (runMain { ethernet := some "eth0", bond := some "bond0",
               bond_interfaces := some "eth1,eth2" } none).exitCode = 0
    ∧ mainDoc { ethernet := some "eth0", bond := some "bond0",
                bond_interfaces := some "eth1,eth2" }
      = some (((NetplanGenerator.init "networkd").add_ethernet "eth0"
          {}).add_bond "bond0" ["eth1", "eth2"] {})
    ∧ getEntry (((NetplanGenerator.init "networkd").add_ethernet "eth0"
          {}).add_bond "bond0" ["eth1", "eth2"] {}) "ethernets" "eth0"
      = some [("dhcp4", FieldVal.scalar (Scalar.b true))]
    ∧ getEntry (((NetplanGenerator.init "networkd").add_ethernet "eth0"
          {}).add_bond "bond0" ["eth1", "eth2"] {}) "bonds" "bond0"
      = some [("interfaces", FieldVal.strlist ["eth1", "eth2"]),
              ("parameters", FieldVal.smap [("mode", Scalar.s "active-backup")]),
              ("dhcp4", FieldVal.scalar (Scalar.b true))] := by
  refine ⟨rfl, rfl, by decide, by decide⟩

/-- C8 (amended): at least one primary-interface flag is required: with
none supplied (and the NetworkManager-minimal switch off) the invocation
terminates with exit status 2 and a diagnostic on the error stream, with
nothing printed to standard output and nothing written; several primary
flags may however be combined in one invocation, each adding its record. -/
theorem no_primary_interface_usage_error (args : Args) (w : Option String)
    (hnm : args.use_nm = false)
    (he : truthyStr args.ethernet = false)
    (hb : truthyStr args.bond = false)
    (hbr : truthyStr args.bridge = false) :
    runMain args w
      = { exitCode := 2, stdout := ""
          stderr :=
            usageText ++ "At least one interface type must be specified" ++ "\n"
          written := none } := by
  simp [runMain, mainModel, hnm, mainBuild, he, hb, hbr]

/-- C8 witness: invoking with every flag at its default is the usage
error. -/
theorem no_primary_interface_usage_error_witness :
    runMain {} none
      = { exitCode := 2, stdout := ""
          stderr :=
            usageText ++ "At least one interface type must be specified" ++ "\n"
          written := none } :=
  no_primary_interface_usage_error {} none rfl rfl rfl rfl

/-- C9: when an output file is named, a successful write exits 0, prints
the confirmation to standard output only, and the file receives exactly
the rendered YAML; a failed write reports the I/O error on the error
stream and exits 1 with nothing written — in both cases the document had
already been constructed and rendered (`y` is its `to_yaml`). -/
theorem output_file_write_outcomes (args : Args) (y : String)
    (g : NetplanGenerator) (e : String)
    (hok : mainModel args = Except.ok (y, g))
    (hout : truthyStr args.output = true) :
    runMain args none
      = { exitCode := 0
          stdout := "Configuration written to " ++ args.output.getD "" ++ "\n"
          stderr := "", written := some (args.output.getD "", y) }
    ∧ runMain args (some e)
      = { exitCode := 1, stdout := ""
          stderr := "Error writing to file: " ++ e ++ "\n", written := none }
    ∧ (args.use_nm = false → y = g.to_yaml) := by
  refine ⟨?_, ?_, ?_⟩
  · simp [runMain, hok, hout]
  · simp [runMain, hok, hout]
  · intro hnm
    apply mainBuild_ok_rendered args y g
    rw [← hok]
    simp [mainModel, hnm]

/-- C9 witness: a concrete invocation writing one DHCP ethernet to
`cfg.yaml`, in both the success and the failure case. -/
theorem output_file_write_outcomes_witness :
    runMain { ethernet := some "eth0", output := some "cfg.yaml" } none
      = { exitCode := 0, stdout := "Configuration written to cfg.yaml\n"
          stderr := ""
          written := some ("cfg.yaml",
            "network:\n  version: 2\n  renderer: networkd\n  ethernets:\n    eth0:\n      dhcp4: true\n") }
    ∧ runMain { ethernet := some "eth0", output := some "cfg.yaml" }
        (some "disk full")
      = { exitCode := 1, stdout := ""
          stderr := "Error writing to file: disk full\n", written := none } := by
  have h := output_file_write_outcomes
    { ethernet := some "eth0", output := some "cfg.yaml" }
    "network:\n  version: 2\n  renderer: networkd\n  ethernets:\n    eth0:\n      dhcp4: true\n"
    ((NetplanGenerator.init "networkd").add_ethernet "eth0" {})
    "disk full" rfl rfl
  exact ⟨h.1, h.2.1⟩

/-- C10: each add-operation has a strict frame: it can only affect the
entry under its own name in its own section — `version`, `renderer`, the
two other sections, and every same-section entry under a different key
are unchanged. -/
theorem add_operations_frame (g : NetplanGenerator) (n k : String)
    (oe : EthOptions) (ob : BondOptions) (obr : BridgeOptions)
    (ifsB ifsR : List String) (hk : k ≠ n) :
    ((g.add_ethernet n oe).network.lookup "version"
        = g.network.lookup "version"
      ∧ (g.add_ethernet n oe).network.lookup "renderer"
        = g.network.lookup "renderer"
      ∧ getSection (g.add_ethernet n oe) "bonds" = getSection g "bonds"
      ∧ getSection (g.add_ethernet n oe) "bridges" = getSection g "bridges"
      ∧ getEntry (g.add_ethernet n oe) "ethernets" k
        = getEntry g "ethernets" k)
    ∧ ((g.add_bond n ifsB ob).network.lookup "version"
        = g.network.lookup "version"
      ∧ (g.add_bond n ifsB ob).network.lookup "renderer"
        = g.network.lookup "renderer"
      ∧ getSection (g.add_bond n ifsB ob) "ethernets"
        = getSection g "ethernets"
      ∧ getSection (g.add_bond n ifsB ob) "bridges" = getSection g "bridges"
      ∧ getEntry (g.add_bond n ifsB ob) "bonds" k = getEntry g "bonds" k)
    ∧ ((g.add_bridge n ifsR obr).network.lookup "version"
        = g.network.lookup "version"
      ∧ (g.add_bridge n ifsR obr).network.lookup "renderer"
        = g.network.lookup "renderer"
      ∧ getSection (g.add_bridge n ifsR obr) "ethernets"
        = getSection g "ethernets"
      ∧ getSection (g.add_bridge n ifsR obr) "bonds" = getSection g "bonds"
      ∧ getEntry (g.add_bridge n ifsR obr) "bridges" k
        = getEntry g "bridges" k) := by
  refine ⟨⟨?_, ?_, ?_, ?_, ?_⟩, ⟨?_, ?_, ?_, ?_, ?_⟩, ⟨?_, ?_, ?_, ?_, ?_⟩⟩
  · exact lookup_add_ethernet_ne g n oe "version" (by decide)
  · exact lookup_add_ethernet_ne g n oe "renderer" (by decide)
  · exact getSection_add_ethernet_ne g n oe "bonds" (by decide)
  · exact getSection_add_ethernet_ne g n oe "bridges" (by decide)
  · exact getEntry_add_ethernet_ne g n oe k hk
  · exact lookup_add_bond_ne g n ifsB ob "version" (by decide)
  · exact lookup_add_bond_ne g n ifsB ob "renderer" (by decide)
  · exact getSection_add_bond_ne g n ifsB ob "ethernets" (by decide)
  · exact getSection_add_bond_ne g n ifsB ob "bridges" (by decide)
  · exact getEntry_add_bond_ne g n ifsB ob k hk
  · exact lookup_add_bridge_ne g n ifsR obr "version" (by decide)
  · exact lookup_add_bridge_ne g n ifsR obr "renderer" (by decide)
  · exact getSection_add_bridge_ne g n ifsR obr "ethernets" (by decide)
  · exact getSection_add_bridge_ne g n ifsR obr "bonds" (by decide)
  · exact getEntry_add_bridge_ne g n ifsR obr k hk

/-- C10 witness: the frame applied at concrete distinct names. -/
theorem add_operations_frame_witness :
    getEntry ((NetplanGenerator.init "networkd").add_ethernet "eth0" {})
        "ethernets" "eth1"
      = getEntry (NetplanGenerator.init "networkd") "ethernets" "eth1"
    ∧ getSection ((NetplanGenerator.init "networkd").add_ethernet "eth0" {})
        "bonds"
      = getSection (NetplanGenerator.init "networkd") "bonds"
    ∧ getEntry ((NetplanGenerator.init "networkd").add_bond "bond0"
        ["eth0"] {}) "bonds" "bond1"
      = getEntry (NetplanGenerator.init "networkd") "bonds" "bond1" := by
  have h := add_operations_frame (NetplanGenerator.init "networkd")
    "eth0" "eth1" {} {} {} [] [] (by decide)
  have h2 := add_operations_frame (NetplanGenerator.init "networkd")
    "bond0" "bond1" {} {} {} ["eth0"] [] (by decide)
  exact ⟨h.1.2.2.2.2, h.1.2.2.1, h2.2.1.2.2.2.2⟩
